import Mathlib

/-!
Shallow embedding of the goldsignal repository's signal-status and
auto-trade risk-sizing logic.

Numbers are modelled by `ℚ` (the source is JavaScript arithmetic on
`number`; the claims speak of exact real arithmetic, and every quantity
involved is produced by field operations, absolute value and rounding).
`Math.round` is modelled by `jsRound` below: `Math.round x = ⌊x + 1/2⌋`,
ties rounding toward `+∞`, which is JavaScript's behaviour.
`Number.prototype.toFixed(1)` is modelled by `toFixed1`: the sign is taken
first, then the absolute value is rounded to one decimal digit, ties away
from zero, as in the ECMAScript specification.

The database row type `signals.Row` declares `type: 'buy' | 'sell'`, but
the runtime value comes from the database unchecked and
`calculateSignalStatus` has an explicit fallback branch for other values,
so `type` (and the other string-typed enumerations) are modelled as
`String`.
-/

namespace GoldSignal

/-- JavaScript `Math.round`: round half toward positive infinity. -/
def jsRound (q : ℚ) : ℚ := (⌊q + 1/2⌋ : ℤ)

/-- JavaScript `x.toFixed(1)` (ECMAScript `Number.prototype.toFixed`):
take the sign, then round `|x| * 10` to the nearest integer, ties up. -/
def toFixed1 (q : ℚ) : String :=
  let sign := if q < 0 then "-" else ""
  let n : ℕ := (⌊|q| * 10 + 1/2⌋).toNat
  sign ++ toString (n / 10) ++ "." ++ toString (n % 10)

/-- `signals.Row` from the database schema (`src/lib/supabase.ts`). -/
structure Signal where
  id : String
  symbol : String
  type : String
  entry_price : ℚ
  stop_loss : ℚ
  take_profit : ℚ
  status : String
  confidence : ℚ
  description : String
  created_at : String
  updated_at : String
  deriving DecidableEq, Repr

/-- The status labels of `SignalStatusInfo.status` in `signalStatus.ts`. -/
inductive SignalStatus where
  | pending
  | active
  | hit_tp
  | hit_sl
  | closed
  deriving DecidableEq, Repr

/-- `SignalStatusInfo` from `signalStatus.ts`; the optional fields `pnl`,
`pnlPercentage`, `isProfit` are `Option`s, absent = `none`. -/
structure SignalStatusInfo where
  status : SignalStatus
  pnl : Option ℚ
  pnlPercentage : Option ℚ
  isProfit : Option Bool
  statusText : String
  deriving DecidableEq, Repr

/-- `calculateSignalStatus` from `src/utils/signalStatus.ts`, line by line. -/
def calculateSignalStatus (signal : Signal) (currentPrice : ℚ) : SignalStatusInfo :=
  let entryPrice := signal.entry_price
  let stopLoss := signal.stop_loss
  let takeProfit := signal.take_profit
  let signalType := signal.type
  if signalType = "buy" then
    if currentPrice ≥ takeProfit then
      let pnl := takeProfit - entryPrice
      let pnlPercentage := ((takeProfit - entryPrice) / entryPrice) * 100
      { status := .hit_tp, pnl := some pnl, pnlPercentage := some pnlPercentage,
        isProfit := some true,
        statusText := "TP HIT (+" ++ toFixed1 pnlPercentage ++ "%)" }
    else if currentPrice ≤ stopLoss then
      let pnl := stopLoss - entryPrice
      let pnlPercentage := ((stopLoss - entryPrice) / entryPrice) * 100
      { status := .hit_sl, pnl := some pnl, pnlPercentage := some pnlPercentage,
        isProfit := some false,
        statusText := "SL HIT (" ++ toFixed1 pnlPercentage ++ "%)" }
    else if currentPrice ≤ entryPrice then
      let pnl := currentPrice - entryPrice
      let pnlPercentage := ((currentPrice - entryPrice) / entryPrice) * 100
      { status := .active, pnl := some pnl, pnlPercentage := some pnlPercentage,
        isProfit := some (decide (pnl ≥ 0)),
        statusText := "ACTIVE (" ++ (if pnlPercentage ≥ 0 then "+" else "") ++
          toFixed1 pnlPercentage ++ "%)" }
    else
      { status := .pending, pnl := none, pnlPercentage := none, isProfit := none,
        statusText := "PENDING" }
  else if signalType = "sell" then
    if currentPrice ≤ takeProfit then
      let pnl := entryPrice - takeProfit
      let pnlPercentage := ((entryPrice - takeProfit) / entryPrice) * 100
      { status := .hit_tp, pnl := some pnl, pnlPercentage := some pnlPercentage,
        isProfit := some true,
        statusText := "TP HIT (+" ++ toFixed1 pnlPercentage ++ "%)" }
    else if currentPrice ≥ stopLoss then
      let pnl := entryPrice - stopLoss
      let pnlPercentage := ((entryPrice - stopLoss) / entryPrice) * 100
      { status := .hit_sl, pnl := some pnl, pnlPercentage := some pnlPercentage,
        isProfit := some false,
        statusText := "SL HIT (" ++ toFixed1 pnlPercentage ++ "%)" }
    else if currentPrice ≥ entryPrice then
      let pnl := entryPrice - currentPrice
      let pnlPercentage := ((entryPrice - currentPrice) / entryPrice) * 100
      { status := .active, pnl := some pnl, pnlPercentage := some pnlPercentage,
        isProfit := some (decide (pnl ≥ 0)),
        statusText := "ACTIVE (" ++ (if pnlPercentage ≥ 0 then "+" else "") ++
          toFixed1 pnlPercentage ++ "%)" }
    else
      { status := .pending, pnl := none, pnlPercentage := none, isProfit := none,
        statusText := "PENDING" }
  else
    { status := .pending, pnl := none, pnlPercentage := none, isProfit := none,
      statusText := "PENDING" }

/-- `EnhancedSignal` as produced at runtime by `enhanceSignalsWithStatus`:
all fields of the input `Signal` (the object spread copies every field,
including `updated_at`) plus `calculated_status`. -/
structure EnhancedSignal where
  id : String
  symbol : String
  type : String
  entry_price : ℚ
  stop_loss : ℚ
  take_profit : ℚ
  status : String
  confidence : ℚ
  description : String
  created_at : String
  updated_at : String
  calculated_status : Option SignalStatusInfo
  deriving DecidableEq, Repr

/-- `enhanceSignalsWithStatus` from `src/utils/signalStatus.ts`. -/
def enhanceSignalsWithStatus (signals : List Signal) (currentGoldPrice : ℚ) :
    List EnhancedSignal :=
  signals.map fun signal =>
    { id := signal.id
      symbol := signal.symbol
      type := signal.type
      entry_price := signal.entry_price
      stop_loss := signal.stop_loss
      take_profit := signal.take_profit
      status := signal.status
      confidence := signal.confidence
      description := signal.description
      created_at := signal.created_at
      updated_at := signal.updated_at
      calculated_status := some (calculateSignalStatus signal currentGoldPrice) }

/-- `SymbolInfo` from `src/services/BrokerIntegrationService.ts`. -/
structure SymbolInfo where
  symbol : String
  digits : ℚ
  point : ℚ
  contract_size : ℚ
  min_lot : ℚ
  max_lot : ℚ
  lot_step : ℚ
  tick_value : ℚ
  tick_size : ℚ
  margin_required : ℚ
  deriving DecidableEq, Repr

/-- `TradingAccount` from `src/services/BrokerIntegrationService.ts`. -/
structure TradingAccount where
  id : String
  user_id : String
  broker_name : String
  account_id : String
  api_key : Option String
  api_secret : Option String
  account_balance : ℚ
  currency : String
  leverage : ℚ
  status : String
  last_sync : String
  created_at : String
  updated_at : String
  deriving DecidableEq, Repr

/-- `AutoTradeSettings` from `src/services/BrokerIntegrationService.ts`. -/
structure AutoTradeSettings where
  id : String
  user_id : String
  trading_account_id : String
  enabled : Bool
  risk_per_trade : ℚ
  max_concurrent_trades : ℚ
  max_daily_trades : ℚ
  stop_loss_mode : String
  take_profit_mode : String
  trading_hours_start : String
  trading_hours_end : String
  max_drawdown_percentage : ℚ
  emergency_stop : Bool
  created_at : String
  updated_at : String
  deriving DecidableEq, Repr

/-- `OrderRequest` from `src/services/BrokerIntegrationService.ts`. -/
structure OrderRequest where
  symbol : String
  lot_size : ℚ
  order_type : String
  entry_price : Option ℚ
  stop_loss : Option ℚ
  take_profit : Option ℚ
  comment : Option String
  deriving DecidableEq, Repr

/-- The line `const riskAmount = accountBalance * (riskPercentage / 100)`
of `DefaultRiskCalculator.calculateLotSize`. -/
def riskAmount (accountBalance riskPercentage : ℚ) : ℚ :=
  accountBalance * (riskPercentage / 100)

/-- The line
`const pipDistance = Math.abs(entryPrice - stopLossPrice) / symbolInfo.point`. -/
def pipDistance (entryPrice stopLossPrice : ℚ) (symbolInfo : SymbolInfo) : ℚ :=
  |entryPrice - stopLossPrice| / symbolInfo.point

/-- The line
`const pipValue = symbolInfo.tick_value * (symbolInfo.point / symbolInfo.tick_size)`. -/
def pipValue (symbolInfo : SymbolInfo) : ℚ :=
  symbolInfo.tick_value * (symbolInfo.point / symbolInfo.tick_size)

/-- The line `const lotSize = riskAmount / (pipDistance * pipValue)`. -/
def rawLotSize (accountBalance riskPercentage entryPrice stopLossPrice : ℚ)
    (symbolInfo : SymbolInfo) : ℚ :=
  riskAmount accountBalance riskPercentage /
    (pipDistance entryPrice stopLossPrice symbolInfo * pipValue symbolInfo)

/-- `DefaultRiskCalculator.calculateLotSize` from
`src/services/BrokerIntegrationService.ts`. -/
def calculateLotSize (accountBalance riskPercentage entryPrice stopLossPrice : ℚ)
    (symbolInfo : SymbolInfo) : ℚ :=
  let lotSize := rawLotSize accountBalance riskPercentage entryPrice stopLossPrice symbolInfo
  let roundedLotSize := jsRound (lotSize / symbolInfo.lot_step) * symbolInfo.lot_step
  max symbolInfo.min_lot (min symbolInfo.max_lot roundedLotSize)

/-- The result record `{ valid: boolean; reason?: string }` of
`DefaultRiskCalculator.validateTrade`. -/
structure ValidationResult where
  valid : Bool
  reason : Option String
  deriving DecidableEq, Repr

/-- `DefaultRiskCalculator.validateTrade` from
`src/services/BrokerIntegrationService.ts`; the `_signal` argument is
unused in the source. -/
def validateTrade (_signal : Signal) (account : TradingAccount)
    (settings : AutoTradeSettings) : ValidationResult :=
  if account.status ≠ "active" then
    { valid := false, reason := some "Trading account not active" }
  else if settings.emergency_stop then
    { valid := false, reason := some "Emergency stop activated" }
  else if settings.risk_per_trade > 5 then
    { valid := false, reason := some "Risk per trade too high (max 5%)" }
  else if account.account_balance < 100 then
    { valid := false, reason := some "Insufficient account balance" }
  else
    { valid := true, reason := none }

/-- Lexicographic strict comparison of character lists: the semantics of
JavaScript `<` on strings (code-unit order; identical to code-point order
on the ASCII `"HH:MM"` strings involved). -/
def charListLt : List Char → List Char → Bool
  | _, [] => false
  | [], _ :: _ => true
  | a :: as, b :: bs =>
    if a < b then true else if b < a then false else charListLt as bs

/-- JavaScript string `<`. -/
def jsStrLt (a b : String) : Bool := charListLt a.data b.data

/-- `BrokerIntegrationService.isWithinTradingHours`; the wall-clock string
`"HH:MM"` is passed in explicitly. JavaScript `a >= b` on strings is
`!(a < b)` and `a <= b` is `!(b < a)`. -/
def isWithinTradingHours (settings : AutoTradeSettings) (currentTime : String) : Bool :=
  !jsStrLt currentTime settings.trading_hours_start &&
    !jsStrLt settings.trading_hours_end currentTime

/-- Which broker entry point the order is sent to. -/
inductive OrderSide where
  | buyOrder
  | sellOrder
  deriving DecidableEq, Repr

/-- Outcome of one iteration of the account loop in
`BrokerIntegrationService.executeSignalAutoTrade`. -/
inductive AccountStep where
  | skippedDisabled
  | skippedValidation (reason : Option String)
  | skippedOutsideHours
  | skippedUnknownBroker
  | placed (side : OrderSide) (order : OrderRequest)
  deriving DecidableEq, Repr

/-- One iteration of the `for (const account of userTradingAccounts)` loop
of `BrokerIntegrationService.executeSignalAutoTrade`, with its effects
resolved to inputs: `osettings` is the result of `getAutoTradeSettings`,
`currentTime` the wall clock used by `isWithinTradingHours`, `brokerKnown`
whether `this.brokers.get(account.broker_name)` succeeds, and `symbolInfo`
the result of `broker.getSymbolInfo`. -/
def executeAutoTradeForAccount (signal : Signal) (account : TradingAccount)
    (osettings : Option AutoTradeSettings) (currentTime : String)
    (brokerKnown : Bool) (symbolInfo : SymbolInfo) : AccountStep :=
  match osettings with
  | none => .skippedDisabled
  | some settings =>
    if !settings.enabled then .skippedDisabled
    else
      let validation := validateTrade signal account settings
      if !validation.valid then .skippedValidation validation.reason
      else if !isWithinTradingHours settings currentTime then .skippedOutsideHours
      else if !brokerKnown then .skippedUnknownBroker
      else
        let lotSize := calculateLotSize account.account_balance settings.risk_per_trade
          signal.entry_price signal.stop_loss symbolInfo
        let orderRequest : OrderRequest :=
          { symbol := signal.symbol
            lot_size := lotSize
            order_type := signal.type
            entry_price := none
            stop_loss := some signal.stop_loss
            take_profit := some signal.take_profit
            comment := some ("Auto-trade from signal " ++ signal.id) }
        .placed (if signal.type = "buy" then .buyOrder else .sellOrder) orderRequest

/-! Concrete fixtures used by the witness corollaries. -/

/-- A concrete buy signal. -/
def sigBuy : Signal :=
  ⟨"sig-1", "XAUUSD", "buy", 1900, 1890, 1920, "active", 85, "demo", "t0", "t1"⟩

/-- A concrete sell signal. -/
def sigSell : Signal :=
  ⟨"sig-2", "XAUUSD", "sell", 1900, 1910, 1880, "active", 85, "demo", "t0", "t1"⟩

/-- A concrete signal whose `type` is neither `"buy"` nor `"sell"`. -/
def sigHold : Signal :=
  ⟨"sig-3", "XAUUSD", "hold", 1900, 1890, 1920, "active", 85, "demo", "t0", "t1"⟩

/-- A concrete active trading account with a 10000 balance. -/
def acct0 : TradingAccount :=
  ⟨"acc-1", "user-1", "demo", "D-1", none, none, 10000, "USD", 100, "active",
    "t0", "t0", "t1"⟩

/-- Concrete enabled auto-trade settings: 2% risk, hours 09:00–17:00. -/
def settings0 : AutoTradeSettings :=
  ⟨"set-1", "user-1", "acc-1", true, 2, 3, 10, "signal", "signal",
    "09:00", "17:00", 20, false, "t0", "t1"⟩

/-- Concrete symbol info: point 0.01, lot step 0.01, lots in [0.01, 100]. -/
def si0 : SymbolInfo :=
  ⟨"XAUUSD", 2, 1/100, 100, 1/100, 100, 1/100, 1, 1/100, 100⟩

/-! Helper lemmas about `jsRound`. -/

/-- `⌊y + 1/2⌋` is within `1/2` of `y`. -/
theorem abs_sub_jsRound_le (y : ℚ) : |y - ⌊y + 1/2⌋| ≤ 1/2 := by
  have h1 : ((⌊y + 1/2⌋ : ℤ) : ℚ) ≤ y + 1/2 := Int.floor_le _
  have h2 : y + 1/2 - 1 < ((⌊y + 1/2⌋ : ℤ) : ℚ) := Int.sub_one_lt_floor _
  rw [abs_le]
  constructor <;> linarith

/-- `⌊y + 1/2⌋` is a nearest integer to `y`. -/
theorem jsRound_nearest_int (y : ℚ) (m : ℤ) :
    |y - ⌊y + 1/2⌋| ≤ |y - m| := by
  by_cases hm : m = ⌊y + 1/2⌋
  · rw [hm]
  · have hne : (⌊y + 1/2⌋ : ℤ) - m ≠ 0 := sub_ne_zero.mpr fun h => hm h.symm
    have h1 : (1 : ℤ) ≤ |⌊y + 1/2⌋ - m| := Int.one_le_abs hne
    have h1q : (1 : ℚ) ≤ |((⌊y + 1/2⌋ : ℤ) : ℚ) - (m : ℚ)| := by
      exact_mod_cast h1
    have h3 := abs_sub_jsRound_le y
    have h4 : |((⌊y + 1/2⌋ : ℤ) : ℚ) - (m : ℚ)| ≤
        |((⌊y + 1/2⌋ : ℤ) : ℚ) - y| + |y - (m : ℚ)| := abs_sub_le _ _ _
    have h5 : |((⌊y + 1/2⌋ : ℤ) : ℚ) - y| = |y - ((⌊y + 1/2⌋ : ℤ) : ℚ)| :=
      abs_sub_comm _ _
    rw [h5] at h4
    linarith

/-- `jsRound` is monotone. -/
theorem jsRound_mono (q1 q2 : ℚ) (h : q1 ≤ q2) : jsRound q1 ≤ jsRound q2 := by
  unfold jsRound
  exact_mod_cast Int.floor_le_floor (by linarith)

/-- Claim C2: for a buy signal, the status is decided by the chain
`hit_tp` if `p ≥ take_profit`, else `hit_sl` if `p ≤ stop_loss`, else
`active` if `p ≤ entry_price`, else `pending`; in particular a price
strictly between `entry_price` and `take_profit` and above `stop_loss`
is `pending`. -/
theorem calculateSignalStatus_buy_order (signal : Signal) (p : ℚ)
    (hbuy : signal.type = "buy") :
    (calculateSignalStatus signal p).status =
      (if p ≥ signal.take_profit then SignalStatus.hit_tp
       else if p ≤ signal.stop_loss then SignalStatus.hit_sl
       else if p ≤ signal.entry_price then SignalStatus.active
       else SignalStatus.pending) ∧
    (signal.entry_price < p → p < signal.take_profit → signal.stop_loss < p →
      (calculateSignalStatus signal p).status = SignalStatus.pending) := by
  have hmain : (calculateSignalStatus signal p).status =
      (if p ≥ signal.take_profit then SignalStatus.hit_tp
       else if p ≤ signal.stop_loss then SignalStatus.hit_sl
       else if p ≤ signal.entry_price then SignalStatus.active
       else SignalStatus.pending) := by
    simp only [calculateSignalStatus, hbuy, if_pos rfl]
    split_ifs <;> rfl
  refine ⟨hmain, fun h1 h2 h3 => ?_⟩
  rw [hmain, if_neg (not_le.mpr h2), if_neg (not_le.mpr h3), if_neg (not_le.mpr h1)]

/-- Witness for C2: a concrete buy signal at a price strictly between
entry and take-profit. -/
theorem calculateSignalStatus_buy_order_witness :
    sigBuy.type = "buy" ∧
    (calculateSignalStatus sigBuy 1905).status =
      (if (1905:ℚ) ≥ sigBuy.take_profit then SignalStatus.hit_tp
       else if (1905:ℚ) ≤ sigBuy.stop_loss then SignalStatus.hit_sl
       else if (1905:ℚ) ≤ sigBuy.entry_price then SignalStatus.active
       else SignalStatus.pending) ∧
    (sigBuy.entry_price < 1905 → (1905:ℚ) < sigBuy.take_profit →
      sigBuy.stop_loss < 1905 →
      (calculateSignalStatus sigBuy 1905).status = SignalStatus.pending) :=
  ⟨rfl, (calculateSignalStatus_buy_order sigBuy 1905 rfl).1,
    (calculateSignalStatus_buy_order sigBuy 1905 rfl).2⟩

/-- Claim C3: for a sell signal, the status is decided by the chain
`hit_tp` if `p ≤ take_profit`, else `hit_sl` if `p ≥ stop_loss`, else
`active` if `p ≥ entry_price`, else `pending`; in particular a price
strictly between `take_profit` and `entry_price` and below `stop_loss`
is `pending`. -/
theorem calculateSignalStatus_sell_order (signal : Signal) (p : ℚ)
    (hsell : signal.type = "sell") :
    (calculateSignalStatus signal p).status =
      (if p ≤ signal.take_profit then SignalStatus.hit_tp
       else if p ≥ signal.stop_loss then SignalStatus.hit_sl
       else if p ≥ signal.entry_price then SignalStatus.active
       else SignalStatus.pending) ∧
    (p < signal.entry_price → signal.take_profit < p → p < signal.stop_loss →
      (calculateSignalStatus signal p).status = SignalStatus.pending) := by
  have hmain : (calculateSignalStatus signal p).status =
      (if p ≤ signal.take_profit then SignalStatus.hit_tp
       else if p ≥ signal.stop_loss then SignalStatus.hit_sl
       else if p ≥ signal.entry_price then SignalStatus.active
       else SignalStatus.pending) := by
    simp only [calculateSignalStatus, hsell]
    split_ifs <;> simp_all
  refine ⟨hmain, fun h1 h2 h3 => ?_⟩
  rw [hmain, if_neg (not_le.mpr h2), if_neg (not_le.mpr h3), if_neg (not_le.mpr h1)]

/-- Witness for C3: a concrete sell signal at a price strictly between
take-profit and entry. -/
theorem calculateSignalStatus_sell_order_witness :
    sigSell.type = "sell" ∧
    (calculateSignalStatus sigSell 1895).status =
      (if (1895:ℚ) ≤ sigSell.take_profit then SignalStatus.hit_tp
       else if (1895:ℚ) ≥ sigSell.stop_loss then SignalStatus.hit_sl
       else if (1895:ℚ) ≥ sigSell.entry_price then SignalStatus.active
       else SignalStatus.pending) ∧
    ((1895:ℚ) < sigSell.entry_price → sigSell.take_profit < 1895 →
      (1895:ℚ) < sigSell.stop_loss →
      (calculateSignalStatus sigSell 1895).status = SignalStatus.pending) :=
  ⟨rfl, (calculateSignalStatus_sell_order sigSell 1895 rfl).1,
    (calculateSignalStatus_sell_order sigSell 1895 rfl).2⟩

/-- Claim C7: for a signal whose type is neither `"buy"` nor `"sell"`,
`calculateSignalStatus` falls through to the default: status `pending`,
text `"PENDING"`, and no `pnl`, `pnlPercentage` or `isProfit`. -/
theorem calculateSignalStatus_fallback (s : Signal) (p : ℚ)
    (hb : s.type ≠ "buy") (hs : s.type ≠ "sell") :
    calculateSignalStatus s p =
      { status := SignalStatus.pending, pnl := none, pnlPercentage := none,
        isProfit := none, statusText := "PENDING" } := by
  simp only [calculateSignalStatus]
  rw [if_neg hb, if_neg hs]

/-- Witness for C7: a concrete signal with type `"hold"`. -/
theorem calculateSignalStatus_fallback_witness :
    sigHold.type ≠ "buy" ∧ sigHold.type ≠ "sell" ∧
    calculateSignalStatus sigHold 1900 =
      { status := SignalStatus.pending, pnl := none, pnlPercentage := none,
        isProfit := none, statusText := "PENDING" } :=
  ⟨by decide, by decide,
    calculateSignalStatus_fallback sigHold 1900 (by decide) (by decide)⟩

/-- Claim C9: `validateTrade` ignores its signal argument; it is valid
exactly when the account is active, the emergency stop is off, the risk
per trade is at most 5 and the balance is at least 100; otherwise the
reason is that of the first failing check, in the order account status,
emergency stop, risk cap, minimum balance. -/
theorem validateTrade_spec (s1 s2 : Signal) (a : TradingAccount)
    (st : AutoTradeSettings) :
    validateTrade s1 a st = validateTrade s2 a st ∧
    ((validateTrade s1 a st).valid = true ↔
      a.status = "active" ∧ st.emergency_stop = false ∧
        st.risk_per_trade ≤ 5 ∧ a.account_balance ≥ 100) ∧
    (a.status ≠ "active" →
      validateTrade s1 a st =
        { valid := false, reason := some "Trading account not active" }) ∧
    (a.status = "active" → st.emergency_stop = true →
      validateTrade s1 a st =
        { valid := false, reason := some "Emergency stop activated" }) ∧
    (a.status = "active" → st.emergency_stop = false → st.risk_per_trade > 5 →
      validateTrade s1 a st =
        { valid := false, reason := some "Risk per trade too high (max 5%)" }) ∧
    (a.status = "active" → st.emergency_stop = false → st.risk_per_trade ≤ 5 →
      a.account_balance < 100 →
      validateTrade s1 a st =
        { valid := false, reason := some "Insufficient account balance" }) := by
  refine ⟨rfl, ?_, ?_, ?_, ?_, ?_⟩ <;>
    unfold validateTrade <;>
    split_ifs <;>
    simp_all

/-- Witness for C9: two different concrete signals, a concrete active
account and concrete settings. -/
theorem validateTrade_spec_witness :
    validateTrade sigBuy acct0 settings0 = validateTrade sigSell acct0 settings0 ∧
    (validateTrade sigBuy acct0 settings0).valid = true :=
  ⟨(validateTrade_spec sigBuy sigSell acct0 settings0).1,
    ((validateTrade_spec sigBuy sigSell acct0 settings0).2.1).mpr
      ⟨rfl, rfl, by norm_num [settings0], by norm_num [acct0]⟩⟩

/-- Claim C10: `enhanceSignalsWithStatus` maps each signal, preserving
length and order; the `i`-th output keeps every field of the `i`-th input
unchanged and adds `calculated_status`, which equals
`calculateSignalStatus` of that signal at the given price. -/
theorem enhanceSignalsWithStatus_spec (signals : List Signal) (price : ℚ) :
    (enhanceSignalsWithStatus signals price).length = signals.length ∧
    ∀ i : ℕ, i < signals.length →
      ∃ s : Signal, signals[i]? = some s ∧
        (enhanceSignalsWithStatus signals price)[i]? = some
          { id := s.id, symbol := s.symbol, type := s.type,
            entry_price := s.entry_price, stop_loss := s.stop_loss,
            take_profit := s.take_profit, status := s.status,
            confidence := s.confidence, description := s.description,
            created_at := s.created_at, updated_at := s.updated_at,
            calculated_status := some (calculateSignalStatus s price) } := by
  constructor
  · simp [enhanceSignalsWithStatus]
  · intro i hi
    refine ⟨signals[i], ?_, ?_⟩
    · exact List.getElem?_eq_getElem hi
    · simp [enhanceSignalsWithStatus, List.getElem?_map,
        List.getElem?_eq_getElem hi]

/-- Witness for C10: a concrete two-signal list. -/
theorem enhanceSignalsWithStatus_spec_witness :
    (enhanceSignalsWithStatus [sigBuy, sigSell] 1905).length =
      ([sigBuy, sigSell] : List Signal).length :=
  (enhanceSignalsWithStatus_spec [sigBuy, sigSell] 1905).1

/-- Rounding a value to the grid of integer multiples of a positive
`step` by `⌊x / step + 1/2⌋ * step` lands within `step / 2` of `x` and on
a nearest multiple. -/
theorem jsRound_step_near (x step : ℚ) (hstep : 0 < step) :
    |x - (⌊x / step + 1/2⌋ : ℚ) * step| ≤ step / 2 ∧
    ∀ m : ℤ, |x - (⌊x / step + 1/2⌋ : ℚ) * step| ≤ |x - (m : ℚ) * step| := by
  have hxy : x = x / step * step := (div_mul_cancel₀ x hstep.ne').symm
  have key : ∀ n : ℤ, |x - (n : ℚ) * step| = |x / step - (n : ℚ)| * step := by
    intro n
    calc |x - (n : ℚ) * step| = |(x / step - (n : ℚ)) * step| := by
          rw [sub_mul, ← hxy]
      _ = |x / step - (n : ℚ)| * step := by rw [abs_mul, abs_of_pos hstep]
  constructor
  · rw [key]
    calc |x / step - (⌊x / step + 1/2⌋ : ℚ)| * step ≤ 1/2 * step :=
          mul_le_mul_of_nonneg_right (abs_sub_jsRound_le (x / step)) hstep.le
      _ = step / 2 := by ring
  · intro m
    rw [key, key]
    exact mul_le_mul_of_nonneg_right (jsRound_nearest_int (x / step) m) hstep.le

/-- Claim C1: `calculateLotSize` computes
`riskAmount / (pipDistance * pipValue)` — with `riskAmount`,
`pipDistance`, `pipValue` as in the claim — rounds it to a nearest
integer multiple of `lot_step` (at distance at most `lot_step / 2`,
nearest among all integer multiples), and clamps the rounded value to
`[min_lot, max_lot]`. -/
theorem calculateLotSize_rounds_and_clamps (b r e s : ℚ) (si : SymbolInfo)
    (hstep : 0 < si.lot_step) :
    rawLotSize b r e s si =
      b * (r / 100) /
        (|e - s| / si.point * (si.tick_value * (si.point / si.tick_size))) ∧
    ∃ k : ℤ,
      calculateLotSize b r e s si =
        max si.min_lot (min si.max_lot ((k : ℚ) * si.lot_step)) ∧
      |rawLotSize b r e s si - (k : ℚ) * si.lot_step| ≤ si.lot_step / 2 ∧
      ∀ m : ℤ, |rawLotSize b r e s si - (k : ℚ) * si.lot_step| ≤
        |rawLotSize b r e s si - (m : ℚ) * si.lot_step| := by
  refine ⟨rfl, ⌊rawLotSize b r e s si / si.lot_step + 1/2⌋, rfl,
    (jsRound_step_near _ _ hstep).1, (jsRound_step_near _ _ hstep).2⟩

/-- Witness for C1: concrete balance 10000, risk 2%, entry 1900, stop
1890, and the concrete symbol info `si0`. -/
theorem calculateLotSize_rounds_and_clamps_witness :
    0 < si0.lot_step ∧
    (rawLotSize 10000 2 1900 1890 si0 =
      10000 * (2 / 100) /
        (|(1900 : ℚ) - 1890| / si0.point *
          (si0.tick_value * (si0.point / si0.tick_size))) ∧
    ∃ k : ℤ,
      calculateLotSize 10000 2 1900 1890 si0 =
        max si0.min_lot (min si0.max_lot ((k : ℚ) * si0.lot_step)) ∧
      |rawLotSize 10000 2 1900 1890 si0 - (k : ℚ) * si0.lot_step| ≤
        si0.lot_step / 2 ∧
      ∀ m : ℤ, |rawLotSize 10000 2 1900 1890 si0 - (k : ℚ) * si0.lot_step| ≤
        |rawLotSize 10000 2 1900 1890 si0 - (m : ℚ) * si0.lot_step|) :=
  ⟨by norm_num [si0],
    calculateLotSize_rounds_and_clamps 10000 2 1900 1890 si0 (by norm_num [si0])⟩

/-- Claim C5: under the stated nondegeneracy assumptions every divisor in
`calculateLotSize` is nonzero (the literal `100`, `point`, `tick_size`,
`pipDistance * pipValue`, `lot_step`) and the result is clamped into
`[min_lot, max_lot]`. -/
theorem calculateLotSize_safe (b r e s : ℚ) (si : SymbolInfo)
    (hne : e ≠ s) (hpoint : 0 < si.point) (hts : 0 < si.tick_size)
    (htv : 0 < si.tick_value) (hstep : 0 < si.lot_step)
    (hml : si.min_lot ≤ si.max_lot) :
    (100 : ℚ) ≠ 0 ∧ si.point ≠ 0 ∧ si.tick_size ≠ 0 ∧
    pipDistance e s si * pipValue si ≠ 0 ∧ si.lot_step ≠ 0 ∧
    si.min_lot ≤ calculateLotSize b r e s si ∧
    calculateLotSize b r e s si ≤ si.max_lot := by
  have hpd : 0 < pipDistance e s si :=
    div_pos (abs_pos.mpr (sub_ne_zero.mpr hne)) hpoint
  have hpv : 0 < pipValue si := mul_pos htv (div_pos hpoint hts)
  refine ⟨by norm_num, hpoint.ne', hts.ne', (mul_pos hpd hpv).ne', hstep.ne',
    ?_, ?_⟩
  · exact le_max_left _ _
  · exact max_le hml (min_le_left _ _)

/-- Witness for C5: the nondegeneracy assumptions hold at entry 1900,
stop 1890 and the concrete symbol info `si0`, and the lot size lies in
`[min_lot, max_lot]` there. -/
theorem calculateLotSize_safe_witness :
    ((1900 : ℚ) ≠ 1890 ∧ 0 < si0.point ∧ 0 < si0.tick_size ∧
      0 < si0.tick_value ∧ 0 < si0.lot_step ∧ si0.min_lot ≤ si0.max_lot) ∧
    ((100 : ℚ) ≠ 0 ∧ si0.point ≠ 0 ∧ si0.tick_size ≠ 0 ∧
      pipDistance 1900 1890 si0 * pipValue si0 ≠ 0 ∧ si0.lot_step ≠ 0 ∧
      si0.min_lot ≤ calculateLotSize 10000 2 1900 1890 si0 ∧
      calculateLotSize 10000 2 1900 1890 si0 ≤ si0.max_lot) :=
  ⟨⟨by norm_num, by norm_num [si0], by norm_num [si0], by norm_num [si0],
      by norm_num [si0], by norm_num [si0]⟩,
    calculateLotSize_safe 10000 2 1900 1890 si0 (by norm_num)
      (by norm_num [si0]) (by norm_num [si0]) (by norm_num [si0])
      (by norm_num [si0]) (by norm_num [si0])⟩

/-- Claim C8: with nonnegative risk percentage and nondegenerate prices
and symbol info, `calculateLotSize` is monotone nondecreasing in the
account balance. -/
theorem calculateLotSize_monotone_balance (b1 b2 r e s : ℚ) (si : SymbolInfo)
    (hb : b1 ≤ b2) (hr : 0 ≤ r) (hne : e ≠ s) (hpoint : 0 < si.point)
    (hts : 0 < si.tick_size) (htv : 0 < si.tick_value)
    (hstep : 0 < si.lot_step) :
    calculateLotSize b1 r e s si ≤ calculateLotSize b2 r e s si := by
  have hpd : 0 < pipDistance e s si :=
    div_pos (abs_pos.mpr (sub_ne_zero.mpr hne)) hpoint
  have hpv : 0 < pipValue si := mul_pos htv (div_pos hpoint hts)
  have hD : 0 < pipDistance e s si * pipValue si := mul_pos hpd hpv
  have hnum : b1 * (r / 100) ≤ b2 * (r / 100) :=
    mul_le_mul_of_nonneg_right hb (by positivity)
  have hraw : rawLotSize b1 r e s si ≤ rawLotSize b2 r e s si := by
    unfold rawLotSize riskAmount
    rw [div_eq_mul_inv, div_eq_mul_inv]
    exact mul_le_mul_of_nonneg_right hnum (by positivity)
  have hdiv : rawLotSize b1 r e s si / si.lot_step ≤
      rawLotSize b2 r e s si / si.lot_step := by
    rw [div_eq_mul_inv, div_eq_mul_inv]
    exact mul_le_mul_of_nonneg_right hraw (by positivity)
  have hmul : jsRound (rawLotSize b1 r e s si / si.lot_step) * si.lot_step ≤
      jsRound (rawLotSize b2 r e s si / si.lot_step) * si.lot_step :=
    mul_le_mul_of_nonneg_right (jsRound_mono _ _ hdiv) hstep.le
  simp only [calculateLotSize]
  exact max_le_max le_rfl (min_le_min le_rfl hmul)

/-- Witness for C8: balances 5000 ≤ 10000 at the concrete inputs of the
other lot-size witnesses. -/
theorem calculateLotSize_monotone_balance_witness :
    ((5000 : ℚ) ≤ 10000 ∧ (0 : ℚ) ≤ 2 ∧ (1900 : ℚ) ≠ 1890 ∧
      0 < si0.point ∧ 0 < si0.tick_size ∧ 0 < si0.tick_value ∧
      0 < si0.lot_step) ∧
    calculateLotSize 5000 2 1900 1890 si0 ≤
      calculateLotSize 10000 2 1900 1890 si0 :=
  ⟨⟨by norm_num, by norm_num, by norm_num, by norm_num [si0],
      by norm_num [si0], by norm_num [si0], by norm_num [si0]⟩,
    calculateLotSize_monotone_balance 5000 10000 2 1900 1890 si0 (by norm_num)
      (by norm_num) (by norm_num) (by norm_num [si0]) (by norm_num [si0])
      (by norm_num [si0]) (by norm_num [si0])⟩

/-- Claim C4: the P&L fields of `calculateSignalStatus`. On `hit_tp` and
`hit_sl` the P&L is computed from the signal's own levels only (buy:
`take_profit - entry_price` resp. `stop_loss - entry_price`; sell:
`entry_price - take_profit` resp. `entry_price - stop_loss`), with
`pnlPercentage = (pnl / entry_price) * 100` and `isProfit` true on
`hit_tp`, false on `hit_sl`. On `active` the P&L is
`currentPrice - entry_price` (buy) resp. `entry_price - currentPrice`
(sell) with `isProfit = (pnl ≥ 0)`; on `pending` there is no P&L. -/
theorem calculateSignalStatus_pnl_fields (s : Signal) (p : ℚ) :
    ((calculateSignalStatus s p).status = SignalStatus.hit_tp →
      (calculateSignalStatus s p).pnl =
        some (if s.type = "buy" then s.take_profit - s.entry_price
              else s.entry_price - s.take_profit) ∧
      (calculateSignalStatus s p).isProfit = some true) ∧
    ((calculateSignalStatus s p).status = SignalStatus.hit_sl →
      (calculateSignalStatus s p).pnl =
        some (if s.type = "buy" then s.stop_loss - s.entry_price
              else s.entry_price - s.stop_loss) ∧
      (calculateSignalStatus s p).isProfit = some false) ∧
    (((calculateSignalStatus s p).status = SignalStatus.hit_tp ∨
        (calculateSignalStatus s p).status = SignalStatus.hit_sl) →
      ∃ q : ℚ, (calculateSignalStatus s p).pnl = some q ∧
        (calculateSignalStatus s p).pnlPercentage =
          some (q / s.entry_price * 100)) ∧
    ((calculateSignalStatus s p).status = SignalStatus.active →
      (calculateSignalStatus s p).pnl =
        some (if s.type = "buy" then p - s.entry_price
              else s.entry_price - p) ∧
      (calculateSignalStatus s p).pnlPercentage =
        some ((if s.type = "buy" then p - s.entry_price
              else s.entry_price - p) / s.entry_price * 100) ∧
      (calculateSignalStatus s p).isProfit =
        some (decide ((if s.type = "buy" then p - s.entry_price
              else s.entry_price - p) ≥ 0))) ∧
    ((calculateSignalStatus s p).status = SignalStatus.pending →
      (calculateSignalStatus s p).pnl = none) := by
  by_cases hb : s.type = "buy"
  · simp only [calculateSignalStatus, if_pos hb]
    split_ifs <;> simp [if_pos hb]
  · by_cases hs : s.type = "sell"
    · simp only [calculateSignalStatus, if_neg hb, if_pos hs]
      split_ifs <;> simp [if_neg hb]
    · simp only [calculateSignalStatus, if_neg hb, if_neg hs]
      simp

/-- Witness for C4: the concrete buy signal at a take-profit price. -/
theorem calculateSignalStatus_pnl_fields_witness :
    (calculateSignalStatus sigBuy 1925).status = SignalStatus.hit_tp ∧
    (calculateSignalStatus sigBuy 1925).pnl =
      some (if sigBuy.type = "buy" then sigBuy.take_profit - sigBuy.entry_price
            else sigBuy.entry_price - sigBuy.take_profit) ∧
    (calculateSignalStatus sigBuy 1925).isProfit = some true :=
  ⟨by decide,
    ((calculateSignalStatus_pnl_fields sigBuy 1925).1 (by decide)).1,
    ((calculateSignalStatus_pnl_fields sigBuy 1925).1 (by decide)).2⟩

/-- Claim C6: when an account is processed to the point of placing an
order (settings present and enabled, validation passed, within trading
hours, broker known), the order request carries the signal's type as
`order_type`, its `stop_loss` and `take_profit` unchanged, and a
`lot_size` equal to `calculateLotSize` applied to the account balance,
the settings' risk per trade and the signal's entry and stop prices;
the buy entry point is used exactly for `type = "buy"` and the sell
entry point for `type = "sell"`. -/
theorem executeSignalAutoTrade_order (signal : Signal) (account : TradingAccount)
    (settings : AutoTradeSettings) (currentTime : String) (symbolInfo : SymbolInfo)
    (hen : settings.enabled = true)
    (hval : (validateTrade signal account settings).valid = true)
    (hh : isWithinTradingHours settings currentTime = true) :
    ∃ side : OrderSide, ∃ ord : OrderRequest,
      executeAutoTradeForAccount signal account (some settings) currentTime
        true symbolInfo = AccountStep.placed side ord ∧
      ord.order_type = signal.type ∧
      ord.stop_loss = some signal.stop_loss ∧
      ord.take_profit = some signal.take_profit ∧
      ord.lot_size = calculateLotSize account.account_balance
        settings.risk_per_trade signal.entry_price signal.stop_loss symbolInfo ∧
      (signal.type = "buy" → side = OrderSide.buyOrder) ∧
      (signal.type = "sell" → side = OrderSide.sellOrder) := by
  refine ⟨(if signal.type = "buy" then OrderSide.buyOrder else OrderSide.sellOrder),
    { symbol := signal.symbol
      lot_size := calculateLotSize account.account_balance settings.risk_per_trade
        signal.entry_price signal.stop_loss symbolInfo
      order_type := signal.type
      entry_price := none
      stop_loss := some signal.stop_loss
      take_profit := some signal.take_profit
      comment := some ("Auto-trade from signal " ++ signal.id) },
    ?_, rfl, rfl, rfl, rfl, ?_, ?_⟩
  · simp [executeAutoTradeForAccount, hen, hval, hh]
  · intro h
    rw [if_pos h]
  · intro h
    have hnb : signal.type ≠ "buy" := by rw [h]; decide
    rw [if_neg hnb]

/-- Witness for C6: the concrete buy signal, active account, enabled
settings, a wall clock inside trading hours, known broker and concrete
symbol info. -/
theorem executeSignalAutoTrade_order_witness :
    (settings0.enabled = true ∧
      (validateTrade sigBuy acct0 settings0).valid = true ∧
      isWithinTradingHours settings0 "10:30" = true) ∧
    ∃ side : OrderSide, ∃ ord : OrderRequest,
      executeAutoTradeForAccount sigBuy acct0 (some settings0) "10:30"
        true si0 = AccountStep.placed side ord ∧
      ord.order_type = sigBuy.type ∧
      ord.stop_loss = some sigBuy.stop_loss ∧
      ord.take_profit = some sigBuy.take_profit ∧
      ord.lot_size = calculateLotSize acct0.account_balance
        settings0.risk_per_trade sigBuy.entry_price sigBuy.stop_loss si0 ∧
      (sigBuy.type = "buy" → side = OrderSide.buyOrder) ∧
      (sigBuy.type = "sell" → side = OrderSide.sellOrder) :=
  ⟨⟨rfl, by decide, by decide⟩,
    executeSignalAutoTrade_order sigBuy acct0 settings0 "10:30" si0 rfl
      (by decide) (by decide)⟩

end GoldSignal
